import Mathlib

/-!
Verification of the httpx-go resilience engine against its specification.

The Go sources are shallowly embedded: `time.Duration` is `Int`
(nanoseconds, int64 semantics; multiplications that can overflow int64 in
Go are wrapped explicitly where relevant), Go `nil`-able pointers become
`Option`, panics become `none` / a dedicated constructor, and the
process-global random source, the wall clock and the stdlib RFC1123 date
parser are threaded as explicit oracle parameters.
-/

namespace Httpx

/-- Go's `time.Duration`: a count of nanoseconds held in an int64. -/
abbrev Duration := Int

def nanosecond : Duration := 1

def millisecond : Duration := 1000000

def second : Duration := 1000000000

/-- Two's-complement wrap of an integer to int64 range, used where a Go
int64 multiplication can overflow. -/
def i64wrap (x : Int) : Int := (x + 2 ^ 63) % 2 ^ 64 - 2 ^ 63

/-- ASCII whitespace as recognized by Go's `unicode.IsSpace` (the inputs
relevant here are ASCII; the additional Unicode space code points accepted
by Go never occur in the strings this development evaluates). -/
def isGoSpace (c : Char) : Bool :=
  c == ' ' || c == '\t' || c == '\n' || c == Char.ofNat 11 || c == Char.ofNat 12 || c == '\r'

/-- Go `strings.TrimSpace` on ASCII input. -/
def goTrimSpace (s : String) : String :=
  String.mk (((s.data.dropWhile isGoSpace).reverse.dropWhile isGoSpace).reverse)

/-- Whether the second list is an initial segment of the first. -/
def leadsWith : List Char → List Char → Bool
  | _, [] => true
  | [], _ :: _ => false
  | c :: cs, d :: ds => c == d && leadsWith cs ds

/-- Whether `needle` occurs as a contiguous segment of the list. -/
def hasSub (needle : List Char) : List Char → Bool
  | [] => needle.isEmpty
  | c :: cs => leadsWith (c :: cs) needle || hasSub needle cs

/-- Go `strings.Contains`. -/
def strContains (s sub : String) : Bool :=
  hasSub sub.data s.data

/-- Go `strconv.ParseInt(v, 10, 64)`: optional sign, one or more decimal
digits, result within int64 range; `none` is Go's non-nil error. -/
def goParseInt64 (s : String) : Option Int :=
  match s.data with
  | [] => none
  | c :: rest =>
    let signDigits : Bool × List Char :=
      if c == '-' then (true, rest)
      else if c == '+' then (false, rest)
      else (false, c :: rest)
    let neg := signDigits.1
    let digits := signDigits.2
    if digits.isEmpty then none
    else if digits.all Char.isDigit then
      let n : Nat := digits.foldl (fun a d => a * 10 + (d.toNat - 48)) 0
      let val : Int := if neg then -(n : Int) else (n : Int)
      if -(2 ^ 63) ≤ val ∧ val < 2 ^ 63 then some val else none
    else none

/-- Go's `context` errors: `ctx.Err()` returns one of these when the
context is done. -/
inductive CtxErr
  | canceled
  | deadlineExceeded
deriving DecidableEq

/-- The transport-level Go errors distinguished by `defaultRetryCondition`
(retry.go): a `*tls.CertificateVerificationError`, a `*url.Error` (carrying
its inner error's message and its `Temporary()` verdict), or any other
error value. -/
inductive GoError
  | certVerification (msg : String)
  | urlError (msg : String) (temporary : Bool)
  | other (msg : String)
deriving DecidableEq

/-- `errors.As(err, &certErr)` for `*tls.CertificateVerificationError`. -/
def isCertErr : Option GoError → Bool
  | some (GoError.certVerification _) => true
  | _ => false

/-- `errors.As(err, &urlErr)` for `*url.Error`, exposing
`urlErr.Err.Error()` and `urlErr.Temporary()`. -/
def urlErrOf : Option GoError → Option (String × Bool)
  | some (GoError.urlError m t) => some (m, t)
  | _ => none

/-- Errors returned from a decompress transform (`io.ReadCloser, error`);
`wrapDecompressor` special-cases `io.EOF`. -/
inductive IOErr
  | eof
  | ioMsg (s : String)
deriving DecidableEq

/-- A byte stream (the contents behind an `io.ReadCloser`). -/
abbrev GoBody := List Nat

/-- A `DecompressFn` from types.go: wraps a body stream, possibly failing. -/
abbrev DecompressFn := Option GoBody → Except IOErr (Option GoBody)

/-- The `decompressors` registry of types.go: a map from Content-Encoding
token to transform. Represented as a prepend-on-put association list whose
lookup takes the most recent entry, which gives exactly the observable
get/put behavior of the Go map. -/
abbrev Decompressors := List (String × DecompressFn)

/-- `decompressors.put` (types.go): map insert/overwrite. -/
def decompressorsPut (ds : Decompressors) (key : String) (fn : DecompressFn) : Decompressors :=
  (key, fn) :: ds

/-- `decompressors.get` (types.go): map lookup. -/
def decompressorsGet (ds : Decompressors) (key : String) : Option DecompressFn :=
  (ds.find? (fun p => p.1 == key)).map Prod.snd

/-- `newDecompressor` (types.go): the built-in table. The gzip/flate/zlib
transforms wrap Go stdlib readers (external collaborators), so they are
taken as parameters. -/
def newDecompressor (gz fl zl : DecompressFn) : Decompressors :=
  [("gzip", gz), ("deflate", fl), ("zlib", zl)]

/-- An `http.Header`: `Get` returns the first value for the key (all keys
used in this development are already in canonical MIME form), `Del`
removes the key. -/
abbrev GoHeader := List (String × String)

def headerGet (h : GoHeader) (k : String) : String :=
  ((h.find? (fun p => p.1 == k)).map Prod.snd).getD ""

def headerDel (h : GoHeader) (k : String) : GoHeader :=
  h.filter (fun p => p.1 != k)

/-- The `Response` of part_005, restricted to the fields the verified
operations read or write (`StatusCode`, `Header`, `Body`, `ContentLength`,
`IsRead` and the decompressor registry reference; the trace and
content-type-decoder plumbing is never touched by the claims under
verification). -/
structure Response where
  statusCode : Int
  header : GoHeader
  body : Option GoBody
  contentLength : Int
  isRead : Bool
  decompressors : Decompressors

/-! retry.go -/

/-- `JitterStrategy` (retry.go). -/
inductive JitterStrategy
  | WithoutJitter
  | FullJitter
  | EqualJitter
  | DecorrelatedJitter
deriving DecidableEq

/-- `BackoffWithJitter` (retry.go). The `rnd` source is not a field here:
every operation that draws randomness takes an explicit oracle
`rand : Int → Int` standing for `rnd.Int64N`, whose contract
(`0 ≤ rand n < n` for `n > 0`, panic for `n ≤ 0`) is imposed or modelled
at the call sites. -/
structure BackoffWithJitter where
  min : Duration
  max : Duration
  prev : Duration
  strategy : JitterStrategy

/-- `NewBackoffWithJitter` (retry.go): non-positive bounds fall back to the
defaults (100ms / 3000ms); `prev` starts at zero. -/
def NewBackoffWithJitter (minWait maxWait : Duration) (strategy : JitterStrategy) :
    BackoffWithJitter :=
  let minW := if minWait ≤ 0 then 100 * millisecond else minWait
  let maxW := if maxWait ≤ 0 then 3000 * millisecond else maxWait
  ⟨minW, maxW, 0, strategy⟩

/-- `BackoffWithJitter.randDuration` (retry.go). `rand n` stands for
`rnd.Int64N(n)`; `none` is the panic `Int64N` raises on a non-positive
argument (`EqualJitter` with `exp/2 = 0`, `DecorrelatedJitter` with
`prev*3 - min ≤ 0`). The decorrelated branch mutates `prev`, so the
updated state is returned alongside the duration. -/
def randDuration (b : BackoffWithJitter) (rand : Int → Int) (exp : Duration) :
    Option (Duration × BackoffWithJitter) :=
  if exp ≤ 0 then some (nanosecond, b)
  else
    match b.strategy with
    | JitterStrategy.FullJitter => some (rand exp, b)
    | JitterStrategy.EqualJitter =>
      let half := exp / 2
      if half ≤ 0 then none else some (half + rand half, b)
    | JitterStrategy.DecorrelatedJitter =>
      let b1 := if b.prev = 0 then { b with prev := b.min } else b
      let bound := b1.prev * 3 - b1.min
      if bound ≤ 0 then none
      else
        let next := Min.min b1.max (b1.min + rand bound)
        some (next, { b1 with prev := next })
    | JitterStrategy.WithoutJitter => some (exp, b)

/-- `BackoffWithJitter.balanceMinMax` (retry.go). -/
def balanceMinMax (b : BackoffWithJitter) (delay : Duration) : Duration :=
  if delay ≤ 0 ∨ b.max < delay then b.max
  else if delay < b.min then b.min
  else delay

/-- `ParseRetryHeader` (retry.go). The wall clock (`time.Now`, from which
`time.Until` is derived) is the explicit `now` argument, and the stdlib
RFC1123 parser `time.Parse(time.RFC1123, v)` is the oracle `parseDate`
(returning the parsed instant in nanoseconds, `none` on error). The
`time.Second * delay` product wraps like Go int64 arithmetic. -/
def ParseRetryHeader (now : Int) (parseDate : String → Option Int) (v : String) :
    Duration × Bool :=
  if goTrimSpace v == "" then (0, false)
  else
    match goParseInt64 v with
    | some delay =>
      if delay < 0 then (0, false)
      else (i64wrap (second * delay), true)
    | none =>
      match parseDate v with
      | none => (0, false)
      | some retryTime =>
        let remaining := retryTime - now
        if remaining > 0 then (remaining, true) else (0, true)

/-- `BackoffWithJitter.NextWaitDuration` (retry.go). A prior 429/503
response with a parsable Retry-After header short-circuits the computed
backoff. The exponential envelope
`time.Duration(min(float64(b.max), float64(b.min)*math.Exp2(float64(attempt))))`
is written over `Int`: for the int64-nanosecond durations involved the Go
float64 computation is exact (`Exp2` of a non-negative integer is a power
of two and scaling by a power of two is exact below overflow, where the
`min` with `b.max` takes over), so the integer form agrees with the source. -/
def NextWaitDuration (b : BackoffWithJitter) (rand : Int → Int) (now : Int)
    (parseDate : String → Option Int) (res : Option Response) (attempt : Nat) :
    Option (Duration × BackoffWithJitter) :=
  let hint : Option Duration :=
    match res with
    | some r =>
      if r.statusCode = 429 ∨ r.statusCode = 503 then
        let pr := ParseRetryHeader now parseDate (headerGet r.header "Retry-After")
        if pr.2 then some pr.1 else none
      else none
    | none => none
  match hint with
  | some delay => some (delay, b)
  | none =>
    let exp := Min.min b.max (b.min * (2 : Int) ^ attempt)
    (randDuration b rand exp).map (fun p => (balanceMinMax b p.1, p.2))

/-- `defaultRetryCondition` (retry.go). -/
def defaultRetryCondition (res : Option Response) (err : Option GoError) : Bool :=
  if isCertErr err then false
  else
    match urlErrOf err with
    | some (msg, temporary) =>
      if strContains msg "redirects" || strContains msg "invalid header" ||
          strContains msg "unsupported protocol scheme" then false
      else temporary
    | none =>
      match res with
      | none => false
      | some r =>
        if r.statusCode = 429 ∨ (r.statusCode ≥ 500 ∧ r.statusCode ≠ 501) ∨
            r.statusCode = 0 then true
        else false

/-- The current `Retry` configuration (retry.go): static wait, attempt
count, optional user condition, optional backoff calculator. -/
structure Retry where
  wait : Duration
  count : Int
  cond : Option (Option Response → Option GoError → Bool)
  backoff : Option BackoffWithJitter

/-- `NewRetry` (retry.go). -/
def NewRetry : Retry :=
  { wait := 20 * second, count := 10, cond := none, backoff := none }

/-! Circuit breaker (part_004) -/

/-- `CircuitBreakerState` (part_004). -/
inductive CircuitBreakerState
  | StateClosed
  | StateOpen
  | StateHalfOpen
deriving DecidableEq

open CircuitBreakerState

/-- The dynamic value held by the `lastFailureAt` `atomic.Value`
(part_004). The code only ever stores `time.Now().UnixNano()`, an int64;
`PreRequest` type-asserts the loaded value to `time.Time`. Both Go types
are kept so the assertion's success is decided exactly as Go does. -/
inductive GoDynamic
  | dynInt64 (n : Int)
  | dynTime (t : Int)
deriving DecidableEq

/-- A `TripFunc` `func(*http.Response) bool` (part_004): the argument may
be a nil pointer; `none` as a result is a panic raised inside the
predicate (as `defaultTripFunc` does on nil). -/
abbrev TripFunc := Option Response → Option Bool

/-- `defaultTripFunc` (part_004): dereferences its argument, so a nil
response panics. -/
def defaultTripFunc : TripFunc
  | none => none
  | some r => some (r.statusCode > 499)

/-- `BreakerConfig` (part_004); the thresholds are uint32. -/
structure BreakerConfig where
  successThreshold : Nat
  failureThreshold : Nat
  timeout : Duration
  tripFunc : Option TripFunc

/-- `CircuitBreaker` (part_004): the atomic counters are uint32 (additions
wrap at 2^32), `state` always holds a `CircuitBreakerState`, and
`lastFailureAt` is an `atomic.Value` that is `none` until first stored. -/
structure CircuitBreaker where
  config : BreakerConfig
  failureCount : Nat
  successCount : Nat
  state : CircuitBreakerState
  lastFailureAt : Option GoDynamic

/-- `NewCircuitBreaker` (part_004): zero-value config fields fall back to
the defaults (3 failures, 1 success, 2s timeout, `defaultTripFunc`). -/
def NewCircuitBreaker (config : BreakerConfig) : CircuitBreaker :=
  let c1 := if config.failureThreshold = 0 then { config with failureThreshold := 3 } else config
  let c2 := if c1.successThreshold = 0 then { c1 with successThreshold := 1 } else c1
  let c3 := if c2.timeout = 0 then { c2 with timeout := 2 * second } else c2
  let c4 := if c3.tripFunc.isNone then { c3 with tripFunc := some defaultTripFunc } else c3
  { config := c4, failureCount := 0, successCount := 0,
    state := StateClosed, lastFailureAt := none }

/-- `CircuitBreaker.OnSuccess` (part_004). -/
def OnSuccess (cb : CircuitBreaker) : CircuitBreaker :=
  match cb.state with
  | StateClosed =>
    let s := (cb.successCount + 1) % 2 ^ 32
    if s ≥ cb.config.successThreshold then
      { cb with successCount := s, state := StateClosed }
    else
      { cb with successCount := s }
  | StateHalfOpen => { cb with failureCount := 0 }
  | StateOpen => cb

/-- `CircuitBreaker.OnFailure` (part_004). In `StateHalfOpen` the code
stores `time.Now().UnixNano()` — an int64 — into `lastFailureAt`; `now` is
that instant in nanoseconds. -/
def OnFailure (cb : CircuitBreaker) (now : Int) : CircuitBreaker :=
  match cb.state with
  | StateClosed =>
    let f := (cb.failureCount + 1) % 2 ^ 32
    if f ≥ cb.config.failureThreshold then
      { cb with failureCount := f, state := StateOpen }
    else
      { cb with failureCount := f }
  | StateHalfOpen =>
    { cb with lastFailureAt := some (GoDynamic.dynInt64 now), state := StateOpen }
  | StateOpen => cb

/-- Outcome of `CircuitBreaker.PreRequest` (part_004): allowed (with the
possibly-updated breaker), rejected with `ErrCircuitBreakerOpen`, or a
runtime panic. -/
inductive PreOutcome
  | allow (cb : CircuitBreaker)
  | rejected (cb : CircuitBreaker)
  | crashed

/-- `CircuitBreaker.PreRequest` (part_004). When the state is Open the
code evaluates `time.Since(cb.lastFailureAt.Load().(time.Time))`: the
single-value type assertion to `time.Time` panics unless the stored
dynamic value actually is a `time.Time` — and the code only ever stores an
int64 (`UnixNano`), or nothing at all on the Closed→Open trip. -/
def PreRequest (cb : CircuitBreaker) (now : Int) : PreOutcome :=
  if cb.state = StateOpen then
    match cb.lastFailureAt with
    | some (GoDynamic.dynTime t) =>
      if now - t ≥ cb.config.timeout then
        PreOutcome.allow { cb with state := StateHalfOpen }
      else
        PreOutcome.rejected cb
    | _ => PreOutcome.crashed
  else PreOutcome.allow cb

/-- `CircuitBreaker.Execute` (part_004). Go evaluates
`cb.config.TripFunc(r)` before the `||`'s right operand, so a predicate
panic (nil response under `defaultTripFunc`) — modelled as `none` — occurs
even when `err` is non-nil. -/
def Execute (cb : CircuitBreaker) (r : Option Response) (err : Option GoError) (now : Int) :
    Option CircuitBreaker :=
  match cb.config.tripFunc with
  | none => none
  | some tf =>
    match tf r with
    | none => none
    | some tripped =>
      if tripped || err.isSome then some (OnFailure cb now)
      else some (OnSuccess cb)

/-! Response decompression (part_005) -/

/-- The error values `Response.wrapDecompressor` (part_005) can return:
`ErrBodyIsRead`, the `"decompressor not found for %s"` error, or the error
propagated from the transform (when it is not `io.EOF`). -/
inductive WrapErr
  | bodyAlreadyRead
  | decompressorNotFound (token : String)
  | fnFailed (e : IOErr)
deriving DecidableEq

/-- `Response.wrapDecompressor` (part_005). Trimmed absent/`identity`
encodings leave the response untouched; an unregistered non-identity token
fails with the not-found error; a transform error equal to `io.EOF` is
swallowed leaving the response untouched; on success the body is replaced
by the transform's output and the encoding/length headers are dropped. -/
def wrapDecompressor (r : Response) : Except WrapErr Response :=
  if r.isRead then Except.error WrapErr.bodyAlreadyRead
  else
    let v := goTrimSpace (headerGet r.header "Content-Encoding")
    if v == "" || v == "identity" then Except.ok r
    else
      match decompressorsGet r.decompressors v with
      | none => Except.error (WrapErr.decompressorNotFound v)
      | some fn =>
        match fn r.body with
        | Except.error e =>
          if e = IOErr.eof then Except.ok r else Except.error (WrapErr.fnFailed e)
        | Except.ok dec =>
          Except.ok { r with
            body := dec,
            header := headerDel (headerDel r.header "Content-Encoding") "Content-Length",
            contentLength := -1 }

/-! Default transport and client construction (part_006, part_000) -/

/-- The `tls.Config` literal installed by `defaultTransport` (part_006):
the only field the source sets. -/
structure TLSConfig where
  insecureSkipVerify : Bool
deriving DecidableEq

/-- The `http.Transport` fields `defaultTransport` (part_006) sets (the
dial function is an external collaborator and is not represented). -/
structure HTTPTransport where
  tlsClientConfig : TLSConfig
  maxIdleConns : Int
  maxIdleConnsPerHost : Int
  idleConnTimeout : Duration
  expectContinueTimeout : Duration
  tlsHandshakeTimeout : Duration
  forceAttemptHTTP2 : Bool
  writeBufferSize : Int
  readBufferSize : Int
deriving DecidableEq

/-- `defaultTransport` (part_006): note `InsecureSkipVerify: true`. -/
def defaultTransport : HTTPTransport :=
  { tlsClientConfig := { insecureSkipVerify := true },
    maxIdleConns := 512,
    maxIdleConnsPerHost := 2,
    idleConnTimeout := 2 * 60 * second,
    expectContinueTimeout := second,
    tlsHandshakeTimeout := 10 * second,
    forceAttemptHTTP2 := true,
    writeBufferSize := 32 * 1024,
    readBufferSize := 32 * 1024 }

/-- The `Client` of part_000, restricted to the fields the verified
operations touch (`breaker`, the inner `http.Client`'s `Transport`, and
the decompressor registry; `Transport` is nil until set). -/
structure Client where
  breaker : Option CircuitBreaker
  transport : Option HTTPTransport
  trace : Bool
  decompressors : Decompressors

/-- `Client.SetTransport` (part_000): a nil transport leaves the current
one in place. -/
def SetTransport (c : Client) (t : Option HTTPTransport) : Client :=
  if t.isSome then { c with transport := t } else c

/-- `New` (part_000): builds a client with a fresh registry and installs
`defaultTransport` through `SetTransport`. The three built-in stdlib
decompressors are parameters (external collaborators). -/
def New (gz fl zl : DecompressFn) : Client :=
  SetTransport
    { breaker := none, transport := none, trace := false,
      decompressors := newDecompressor gz fl zl }
    (some defaultTransport)

/-! Request execution (part_001: older Exec; part_002: current Exec) -/

/-- The structured retry-exhaustion error built by the older `Exec`
(part_001). Modelled from the spec: the `RetryPollError` type declaration
itself is not under src/ — only its construction site in part_001 is — so
its fields are taken from that struct literal together with spec §4.5
("a structured error carrying attempt count, total sleep time, request
URL/method, and the last underlying error"). -/
structure RetryPollError where
  attempts : Int
  totalSleepTime : Duration
  reqURL : String
  reqMethod : String
  responseError : Option GoError
deriving DecidableEq

/-- The error returned by `Request.Exec`: a transport error passed
through, a context error, the older Exec's exhaustion error, or its
wrapped response-hook failure. -/
inductive ReqError
  | transport (e : GoError)
  | contextError (c : CtxErr)
  | retryPoll (e : RetryPollError)
  | hookFailed (e : GoError)
deriving DecidableEq

/-- The environment a single `Exec` run interacts with: `exec k` is the
outcome `client.exec(r)` produces when called with `r.Attempt = k`
(response-or-nil, error-or-nil); `ctxErrAfter k` is what `r.Context().Err()`
returns when consulted right after that call; `doneDuringSleep a` tells
whether the caller's context completes before the backoff timer during the
sleep that follows loop iteration `a` of the current Exec, in which case
`ctxErrSleep a` is the context error observed then; `rand`, `now` and
`parseDate` feed the backoff calculator. -/
structure ExecEnv where
  exec : Int → Option Response × Option GoError
  ctxErrAfter : Int → Option CtxErr
  doneDuringSleep : Nat → Bool
  ctxErrSleep : Nat → Option CtxErr
  rand : Int → Int
  now : Int
  parseDate : String → Option Int

/-- What one `Exec` run returned, instrumented with the number of
`client.exec` calls it made. -/
structure ExecOutcome where
  res : Option Response
  err : Option ReqError
  attemptsMade : Nat

/-- `Request.isIdempotent` (identical in part_001 and part_002). -/
def isIdempotentMethod (allowNonIdempotentRetry : Bool) (method : String) : Bool :=
  if allowNonIdempotentRetry then true
  else
    method == "GET" || method == "HEAD" || method == "TRACE" ||
      method == "OPTIONS" || method == "DELETE" || method == "PUT"

/-- The older `Retry` configuration used by part_001's Exec. Modelled from
the spec: its declaration is not under src/ (only part_001's uses
`r.retry.PollLimit`, `r.retry.Wait`, `r.retry.Cond`, `r.retry.Backoff`),
so the fields are taken from those uses and spec §3 RetryPolicy ("maximum
attempt count, static wait duration, optional backoff calculator, optional
user retry predicate"). -/
structure RetryV1 where
  pollLimit : Int
  wait : Duration
  cond : Option (Option Response → Option GoError → Bool)
  backoff : Option BackoffWithJitter

/-- The fields of part_001's `Request` read by its `Exec`. -/
structure RequestV1 where
  method : String
  uri : String
  isRetry : Bool
  allowNonIdempotentRetry : Bool
  attempt0 : Int
  retry : Option RetryV1
  responseHook : Option (Option Response → Option GoError)
  requestHookIsNil : Bool

/-- The retry loop of part_001's `Exec` (`for attempt := 1; attempt <=
r.retry.PollLimit; attempt++`). `none` is a panic: a nil `Cond`
dereference, or a panic inside the backoff calculator. The loop's `res,
err := r.client.exec(r)` SHADOWS the function-level `err`, so the
`RetryPollError` literal after the loop reads the never-assigned outer
`err`, which is still nil — hence `responseError := none` on the
exhaustion path. The sleep is a plain `time.Sleep`, not cancellable. -/
def execV1Loop (env : ExecEnv) (cond : Option (Option Response → Option GoError → Bool))
    (pollLimit : Int) (uri method : String) :
    Nat → Int → Duration → Option BackoffWithJitter → Duration → Nat → Option ExecOutcome
  | 0, _, _, _, totalWait, made =>
    some ⟨none, some (ReqError.retryPoll
      ⟨pollLimit, totalWait, uri, method, none⟩), made⟩
  | fuel + 1, attempt, wait, backoff, totalWait, made =>
    if attempt > pollLimit then
      some ⟨none, some (ReqError.retryPoll
        ⟨pollLimit, totalWait, uri, method, none⟩), made⟩
    else
      let out := env.exec attempt
      let res := out.1
      let errg := out.2
      if errg.isSome && env.ctxErrAfter attempt == some CtxErr.deadlineExceeded then
        some ⟨none, some (ReqError.contextError CtxErr.deadlineExceeded), made + 1⟩
      else
        match cond with
        | none => none
        | some c =>
          if !(c res errg) then some ⟨res, none, made + 1⟩
          else
            let bw : Option (Duration × Option BackoffWithJitter) :=
              match backoff with
              | some b =>
                (NextWaitDuration b env.rand env.now env.parseDate res attempt.toNat).map
                  (fun p => (p.1, some p.2))
              | none => some (wait, none)
            match bw with
            | none => none
            | some (wait1, backoff1) =>
              execV1Loop env cond pollLimit uri method fuel (attempt + 1) wait1 backoff1
                (totalWait + wait1) (made + 1)

/-- `Request.Exec` of part_001 (the older, hard attempt-limit policy).
The retry loop runs only when retry is enabled AND the method is
idempotent (or non-idempotent retry was allowed); otherwise a single
`client.exec` call is made, followed by the response-hook branch.
`none` is a panic (nil `r.retry` or nil `Cond` dereference, or a backoff
panic). -/
def ExecV1 (env : ExecEnv) (r : RequestV1) : Option ExecOutcome :=
  if r.isRetry && isIdempotentMethod r.allowNonIdempotentRetry r.method then
    match r.retry with
    | none => none
    | some rt =>
      execV1Loop env rt.cond rt.pollLimit r.uri r.method
        (rt.pollLimit.toNat) 1 rt.wait rt.backoff 0 0
  else
    let out := env.exec r.attempt0
    let res := out.1
    let errg := out.2
    if r.responseHook.isSome && r.requestHookIsNil then
      match r.responseHook with
      | some hook =>
        (match hook res with
         | some he => some ⟨none, some (ReqError.hookFailed he), 1⟩
         | none => some ⟨res, errg.map ReqError.transport, 1⟩)
      | none => some ⟨res, errg.map ReqError.transport, 1⟩
    else
      some ⟨res, errg.map ReqError.transport, 1⟩

/-- The fields of part_002's `Request` read by its `Exec`. -/
structure RequestV2 where
  method : String
  uri : String
  isRetry : Bool
  allowNonIdempotentRetry : Bool
  attempt0 : Int
  retry : Option Retry

/-- The retry loop of part_002's `Exec` (`for attempt := 0; attempt <=
r.retry.Count; attempt++`, label `Loop`). Per iteration: `r.Attempt++`;
`client.exec`; break on a transport error whose context reports
deadline-exceeded; break on the final permitted attempt when the method is
idempotent; when retry is enabled, evaluate `defaultRetryCondition`, then
the user condition (only when the default said no, a condition is set and
the response is non-nil), break when no retry is needed, drain the body,
recompute the wait through the backoff calculator if set, and sleep —
racing the timer against the context, whose completion aborts the whole
loop returning `ctx.Err()`. `none` is a panic inside the backoff
calculator. -/
def execV2Loop (env : ExecEnv) (idem : Bool) (isRetry : Bool)
    (cond : Option (Option Response → Option GoError → Bool)) (count : Int) :
    Nat → Nat → Int → Duration → Option BackoffWithJitter →
      Option Response → Option ReqError → Nat → Option ExecOutcome
  | 0, _, _, _, _, res0, err0, made => some ⟨res0, err0, made⟩
  | fuel + 1, attempt, attemptField, wait, backoff, res0, err0, made =>
    if (attempt : Int) > count then some ⟨res0, err0, made⟩
    else
      let af := attemptField + 1
      let out := env.exec af
      let res := out.1
      let errg := out.2
      let err := errg.map ReqError.transport
      if errg.isSome && env.ctxErrAfter af == some CtxErr.deadlineExceeded then
        some ⟨res, err, made + 1⟩
      else if af - 1 == count && idem then
        some ⟨res, err, made + 1⟩
      else if isRetry then
        let d := defaultRetryCondition res errg
        let needs : Bool :=
          if d then true
          else
            match cond, res with
            | some c, some _ => c res errg
            | _, _ => false
        if !needs then some ⟨res, err, made + 1⟩
        else
          let bw : Option (Duration × Option BackoffWithJitter) :=
            match backoff with
            | some b =>
              (NextWaitDuration b env.rand env.now env.parseDate res attempt).map
                (fun p => (p.1, some p.2))
            | none => some (wait, none)
          match bw with
          | none => none
          | some (wait1, backoff1) =>
            if env.doneDuringSleep attempt then
              some ⟨res, (env.ctxErrSleep attempt).map ReqError.contextError, made + 1⟩
            else
              execV2Loop env idem isRetry cond count fuel (attempt + 1) af wait1 backoff1
                res err (made + 1)
      else
        execV2Loop env idem isRetry cond count fuel (attempt + 1) af wait backoff
          res err (made + 1)

/-- `Request.Exec` of part_002 (the current engine). A nil retry config is
replaced by `&Retry{}` (count 0), a negative count is clamped to 0, and
the loop is entered unconditionally — including for non-idempotent
methods and with retry disabled. -/
def ExecV2 (env : ExecEnv) (r : RequestV2) : Option ExecOutcome :=
  let rt := r.retry.getD { wait := 0, count := 0, cond := none, backoff := none }
  let rt := if rt.count < 0 then { rt with count := 0 } else rt
  execV2Loop env (isIdempotentMethod r.allowNonIdempotentRetry r.method) r.isRetry
    rt.cond rt.count (rt.count.toNat + 1) 0 r.attempt0 rt.wait rt.backoff none none 0

/-! Concrete fixtures used by counterexamples and witnesses -/

/-- A random oracle that always draws 0 (a legal `Int64N` outcome). -/
def noRand : Int → Int := fun _ => 0

/-- A date oracle under which no string is a valid RFC1123 date. -/
def noDate : String → Option Int := fun _ => none

/-- A 503 response carrying `Retry-After: 9999`. -/
def res503RA : Response :=
  { statusCode := 503, header := [("Retry-After", "9999")], body := none,
    contentLength := 0, isRead := false, decompressors := [] }

/-- A plain 503 response. -/
def res503 : Response :=
  { statusCode := 503, header := [], body := none,
    contentLength := 0, isRead := false, decompressors := [] }

/-- A plain 200 response. -/
def res200 : Response :=
  { statusCode := 200, header := [], body := none,
    contentLength := 0, isRead := false, decompressors := [] }

/-- A plain 404 response. -/
def res404 : Response :=
  { statusCode := 404, header := [], body := none,
    contentLength := 0, isRead := false, decompressors := [] }

/-- A plain 500 response. -/
def res500 : Response :=
  { statusCode := 500, header := [], body := none,
    contentLength := 0, isRead := false, decompressors := [] }

/-- A response whose body is compressed with Content-Encoding `br`. -/
def resBr : Response :=
  { statusCode := 200, header := [("Content-Encoding", "br")], body := some [1, 2, 3],
    contentLength := 3, isRead := false, decompressors := [] }

/-- A decompress transform used to exercise the `br` registration. -/
def fnBr : DecompressFn := fun _ => Except.ok (some [9, 9])

/-- A backoff calculator with the default 100ms/3000ms window and no
jitter. -/
def b0 : BackoffWithJitter :=
  NewBackoffWithJitter (100 * millisecond) (3000 * millisecond) JitterStrategy.WithoutJitter

/-- An environment whose transport returns a bare 503 on every attempt and
whose context never completes. -/
def envAll503 : ExecEnv :=
  { exec := fun _ => (some res503, none), ctxErrAfter := fun _ => none,
    doneDuringSleep := fun _ => false, ctxErrSleep := fun _ => none,
    rand := noRand, now := 0, parseDate := noDate }

/-- An environment whose transport fails every attempt with a transient
connection error and whose context never completes. -/
def envBoom : ExecEnv :=
  { exec := fun _ => (none, some (GoError.other "connection reset")),
    ctxErrAfter := fun _ => none, doneDuringSleep := fun _ => false,
    ctxErrSleep := fun _ => none, rand := noRand, now := 0, parseDate := noDate }

/-- An environment whose first transport call fails while the context
reports deadline-exceeded. -/
def envDeadline : ExecEnv :=
  { exec := fun _ => (none, some (GoError.other "timeout")),
    ctxErrAfter := fun _ => some CtxErr.deadlineExceeded,
    doneDuringSleep := fun _ => false, ctxErrSleep := fun _ => none,
    rand := noRand, now := 0, parseDate := noDate }

/-- An environment whose transport always yields 503 and whose context
completes (cancellation) during the first backoff sleep. -/
def envCancelSleep : ExecEnv :=
  { exec := fun _ => (some res503, none), ctxErrAfter := fun _ => none,
    doneDuringSleep := fun _ => true, ctxErrSleep := fun _ => some CtxErr.canceled,
    rand := noRand, now := 0, parseDate := noDate }

/-- Current-engine retry config: static 10ms wait, 2 additional attempts. -/
def retryC1 : Retry := { wait := 10 * millisecond, count := 2, cond := none, backoff := none }

/-- A POST request with retry enabled and no non-idempotent opt-in,
against the current Exec. -/
def reqPost : RequestV2 :=
  { method := "POST", uri := "http://example.com/p", isRetry := true,
    allowNonIdempotentRetry := false, attempt0 := 0, retry := some retryC1 }

/-- A GET request with the same retry config, against the current Exec. -/
def reqGet : RequestV2 :=
  { method := "GET", uri := "http://example.com/g", isRetry := true,
    allowNonIdempotentRetry := false, attempt0 := 0, retry := some retryC1 }

/-- Older-engine retry config: 2 polls, 10ms static wait, always-retry
condition. -/
def retryV1Poll : RetryV1 :=
  { pollLimit := 2, wait := 10 * millisecond, cond := some (fun _ _ => true), backoff := none }

/-- A GET request under the older Exec's hard attempt-limit policy. -/
def reqGetV1 : RequestV1 :=
  { method := "GET", uri := "http://example.com/poll", isRetry := true,
    allowNonIdempotentRetry := false, attempt0 := 0, retry := some retryV1Poll,
    responseHook := none, requestHookIsNil := false }

/-- A POST request with retry enabled under the older Exec. -/
def reqPostV1 : RequestV1 :=
  { method := "POST", uri := "http://example.com/p1", isRetry := true,
    allowNonIdempotentRetry := false, attempt0 := 0, retry := some retryV1Poll,
    responseHook := none, requestHookIsNil := false }

/-- A breaker config with failure threshold 2, success threshold 1, 1s
open timeout and the default trip predicate. -/
def cbCfg : BreakerConfig :=
  { successThreshold := 1, failureThreshold := 2, timeout := second, tripFunc := none }

def cb0 : CircuitBreaker := NewCircuitBreaker cbCfg

/-- The breaker after the failure threshold is reached from Closed. -/
def cbOpen : CircuitBreaker := OnFailure (OnFailure cb0 0) 0

/-- A breaker in HalfOpen (constructed directly: the only code path into
HalfOpen runs through `PreRequest`, which panics). -/
def cbHalf : CircuitBreaker := { cb0 with state := StateHalfOpen }

/-- A breaker built from the all-defaults config. -/
def cbDef : CircuitBreaker :=
  NewCircuitBreaker { successThreshold := 0, failureThreshold := 0, timeout := 0, tripFunc := none }

/-! Theorems -/

/-- Helper: whatever `balanceMinMax` returns lies in `[min, max]` whenever
`min ≤ max`. -/
theorem balanceMinMax_mem (b : BackoffWithJitter) (h : b.min ≤ b.max) (delay : Duration) :
    b.min ≤ balanceMinMax b delay ∧ balanceMinMax b delay ≤ b.max := by
  unfold balanceMinMax
  by_cases h1 : delay ≤ 0 ∨ b.max < delay
  · rw [if_pos h1]
    exact ⟨h, le_refl _⟩
  · rw [if_neg h1]
    push_neg at h1
    by_cases h2 : delay < b.min
    · rw [if_pos h2]
      exact ⟨le_refl _, h⟩
    · rw [if_neg h2]
      exact ⟨le_of_not_lt h2, h1.2⟩

/-- C2. The circuit breaker state machine: reaching the failure threshold
from Closed does flip the state to Open, but records no trip timestamp, so
a subsequent `PreRequest` — before or after the timeout — panics on the
`.(time.Time)` type assertion instead of returning `BreakerOpen` or moving
to HalfOpen; a failure in HalfOpen flips back to Open and stores
`time.Now().UnixNano()`, an int64, after which `PreRequest` again panics
on the same assertion. -/
theorem c2_breaker_timestamp_code_bug :
    cbOpen.state = StateOpen ∧
    cbOpen.lastFailureAt = none ∧
    PreRequest cbOpen 0 = PreOutcome.crashed ∧
    PreRequest cbOpen (10 * second) = PreOutcome.crashed ∧
    (OnFailure cbHalf 7).state = StateOpen ∧
    (OnFailure cbHalf 7).lastFailureAt = some (GoDynamic.dynInt64 7) ∧
    PreRequest (OnFailure cbHalf 7) (10 * second) = PreOutcome.crashed :=
  ⟨rfl, rfl, rfl, rfl, rfl, rfl, rfl⟩

/-- C9. `CircuitBreaker.Execute` with a nil response and a non-nil
transport error panics (the default trip predicate dereferences the nil
response before the error is even consulted) instead of recording a
failure; with a non-nil response it does record a failure exactly when the
predicate trips or the error is non-nil, and a success otherwise. -/
theorem c9_execute_nil_response_code_bug :
    Execute cbDef none (some (GoError.other "connection refused")) 0 = none ∧
    Execute cbDef (some res500) none 0 = some (OnFailure cbDef 0) ∧
    Execute cbDef (some res200) (some (GoError.other "x")) 0 = some (OnFailure cbDef 0) ∧
    Execute cbDef (some res200) none 0 = some (OnSuccess cbDef) :=
  ⟨rfl, rfl, rfl, rfl⟩

/-- C6. Under the older hard attempt-limit Exec, an idempotent GET whose
two permitted attempts both fail with a transport error and are judged
retryable yields a `RetryPollError` that does carry the attempt count (2),
the total sleep time (2 × 10ms), and the request URL and method — but its
`ResponseError` field is nil, not the last attempt's error: the loop's
`res, err :=` shadows the outer `err` the struct literal reads. -/
theorem c6_retry_poll_error_code_bug :
    ExecV1 envBoom reqGetV1 =
      some ⟨none,
        some (ReqError.retryPoll
          { attempts := 2, totalSleepTime := 20 * millisecond,
            reqURL := "http://example.com/poll", reqMethod := "GET",
            responseError := none }), 2⟩ ∧
    (envBoom.exec 2).2 = some (GoError.other "connection reset") :=
  ⟨rfl, rfl⟩

/-- C1 (counterexample). In the current Exec (part_002), a POST with retry
enabled and no `AllowNonIdempotentRetry` that receives 503 on every
attempt is retried anyway: with `Count = 2` the engine makes 3 transport
calls, not the single call the claim requires. -/
theorem c1_counterexample_post_retried :
    ExecV2 envAll503 reqPost = some ⟨some res503, none, 3⟩ ∧
    (⟨some res503, none, 3⟩ : ExecOutcome).attemptsMade ≠ 1 :=
  ⟨rfl, by decide⟩

/-- C3 (counterexample). A prior 503 response with `Retry-After: 9999`
makes `NextWaitDuration` return 9999 seconds as-is — far above the
configured 3000ms maximum — because the Retry-After precedence path skips
`balanceMinMax`. -/
theorem c3_counterexample_retry_after_unclamped :
    NextWaitDuration b0 noRand 0 noDate (some res503RA) 0 = some (9999 * second, b0) ∧
    ¬(9999 * second ≤ b0.max) :=
  ⟨rfl, by decide⟩

/-- C10. `New()` installs `defaultTransport` as the client transport, and
`defaultTransport` sets the TLS configuration's `InsecureSkipVerify` to
true — so every client built with `New()` that does not replace the
transport skips certificate verification, and a TLS certificate
verification error can only come from a user-supplied transport. -/
theorem c10_default_transport_insecure :
    (∀ gz fl zl : DecompressFn, (New gz fl zl).transport = some defaultTransport) ∧
    defaultTransport.tlsClientConfig.insecureSkipVerify = true :=
  ⟨fun _ _ _ => rfl, rfl⟩

/-- C10 witness: the theorem applied to a concrete triple of built-in
transforms. -/
theorem c10_default_transport_insecure_witness :
    (New fnBr fnBr fnBr).transport = some defaultTransport ∧
    defaultTransport.tlsClientConfig.insecureSkipVerify = true :=
  ⟨c10_default_transport_insecure.1 fnBr fnBr fnBr, c10_default_transport_insecure.2⟩

/-- C4. The default retry condition: a TLS certificate verification error
never retries; a URL error whose inner message mentions redirect
exhaustion, invalid header content or an unsupported protocol scheme never
retries; a nil response with no cert/url error never retries; status 429,
any 5xx except 501, or status 0 retries; every other status does not. -/
theorem c4_default_retry_condition :
    (∀ (res : Option Response) (msg : String),
       defaultRetryCondition res (some (GoError.certVerification msg)) = false) ∧
    (∀ (res : Option Response) (msg : String) (temp : Bool),
       (strContains msg "redirects" || strContains msg "invalid header" ||
         strContains msg "unsupported protocol scheme") = true →
       defaultRetryCondition res (some (GoError.urlError msg temp)) = false) ∧
    (∀ err : Option GoError, isCertErr err = false → urlErrOf err = none →
       defaultRetryCondition none err = false) ∧
    (∀ (r : Response) (err : Option GoError), isCertErr err = false → urlErrOf err = none →
       (r.statusCode = 429 ∨ (r.statusCode ≥ 500 ∧ r.statusCode ≠ 501) ∨ r.statusCode = 0) →
       defaultRetryCondition (some r) err = true) ∧
    (∀ (r : Response) (err : Option GoError), isCertErr err = false → urlErrOf err = none →
       ¬(r.statusCode = 429 ∨ (r.statusCode ≥ 500 ∧ r.statusCode ≠ 501) ∨ r.statusCode = 0) →
       defaultRetryCondition (some r) err = false) := by
  refine ⟨?_, ?_, ?_, ?_, ?_⟩
  · intro res msg
    rfl
  · intro res msg temp h
    simp only [defaultRetryCondition, isCertErr, urlErrOf, h]
    rfl
  · intro err h1 h2
    simp only [defaultRetryCondition, h1, h2, Bool.false_eq_true, if_false]
  · intro r err h1 h2 h3
    simp only [defaultRetryCondition, h1, h2, Bool.false_eq_true, if_false]
    rw [if_pos h3]
  · intro r err h1 h2 h3
    simp only [defaultRetryCondition, h1, h2, Bool.false_eq_true, if_false]
    rw [if_neg h3]

/-- C4 witness: the condition evaluated on concrete inputs through the
theorem (a 503 retries, a 404 does not, a certificate error never does). -/
theorem c4_default_retry_condition_witness :
    defaultRetryCondition (some res503) none = true ∧
    defaultRetryCondition (some res404) none = false ∧
    defaultRetryCondition (some res200) (some (GoError.certVerification "bad cert")) = false ∧
    defaultRetryCondition none (some (GoError.urlError "stopped after 10 redirects" true)) = false :=
  ⟨c4_default_retry_condition.2.2.2.1 res503 none rfl rfl (by decide),
   c4_default_retry_condition.2.2.2.2 res404 none rfl rfl (by decide),
   c4_default_retry_condition.1 (some res200) "bad cert",
   c4_default_retry_condition.2.1 none "stopped after 10 redirects" true (by decide)⟩

/-- C5. A prior 429/503 response with a parsable Retry-After header makes
`NextWaitDuration` return exactly the parsed value, bypassing the computed
backoff unconditionally; and `ParseRetryHeader` maps "120" to 120 seconds
(parsed), "-5" to not-parsed, a future HTTP-date to the remaining duration
(parsed), a past HTTP-date to zero (parsed), and "" to not-parsed. -/
theorem c5_retry_after_precedence :
    (∀ (b : BackoffWithJitter) (rand : Int → Int) (now : Int)
       (pd : String → Option Int) (r : Response) (attempt : Nat) (d : Duration),
       (r.statusCode = 429 ∨ r.statusCode = 503) →
       ParseRetryHeader now pd (headerGet r.header "Retry-After") = (d, true) →
       NextWaitDuration b rand now pd (some r) attempt = some (d, b)) ∧
    (∀ (now : Int) (pd : String → Option Int),
       ParseRetryHeader now pd "120" = (120 * second, true)) ∧
    (∀ (now : Int) (pd : String → Option Int),
       ParseRetryHeader now pd "-5" = (0, false)) ∧
    (∀ (now : Int) (pd : String → Option Int) (v : String) (t : Int),
       goTrimSpace v ≠ "" → goParseInt64 v = none → pd v = some t → now < t →
       ParseRetryHeader now pd v = (t - now, true)) ∧
    (∀ (now : Int) (pd : String → Option Int) (v : String) (t : Int),
       goTrimSpace v ≠ "" → goParseInt64 v = none → pd v = some t → t ≤ now →
       ParseRetryHeader now pd v = (0, true)) ∧
    (∀ (now : Int) (pd : String → Option Int), ParseRetryHeader now pd "" = (0, false)) := by
  refine ⟨?_, ?_, ?_, ?_, ?_, ?_⟩
  · intro b rand now pd r attempt d hstat hparse
    simp only [NextWaitDuration, hparse, if_pos hstat]
    simp
  · intro now pd
    rfl
  · intro now pd
    rfl
  · intro now pd v t h1 h2 h3 h4
    simp only [ParseRetryHeader, h2, h3, beq_iff_eq, if_neg h1]
    rw [if_pos]
    omega
  · intro now pd v t h1 h2 h3 h4
    simp only [ParseRetryHeader, h2, h3, beq_iff_eq, if_neg h1]
    rw [if_neg]
    omega
  · intro now pd
    rfl

/-- C5 witness: the theorem applied at concrete inputs — a 503 response
whose Retry-After is "9999" yields exactly 9999s, and the header parser
evaluated on the five sample inputs. -/
theorem c5_retry_after_precedence_witness :
    NextWaitDuration b0 noRand 0 noDate (some res503RA) 3 = some (9999 * second, b0) ∧
    ParseRetryHeader 0 noDate "120" = (120 * second, true) ∧
    ParseRetryHeader 0 noDate "-5" = (0, false) ∧
    ParseRetryHeader 5 (fun _ => some 17) "future date" = (12, true) ∧
    ParseRetryHeader 20 (fun _ => some 17) "past date" = (0, true) ∧
    ParseRetryHeader 0 noDate "" = (0, false) :=
  ⟨c5_retry_after_precedence.1 b0 noRand 0 noDate res503RA 3 (9999 * second)
     (by decide) (by decide),
   c5_retry_after_precedence.2.1 0 noDate,
   c5_retry_after_precedence.2.2.1 0 noDate,
   c5_retry_after_precedence.2.2.2.1 5 (fun _ => some 17) "future date" 17
     (by decide) (by decide) rfl (by decide),
   c5_retry_after_precedence.2.2.2.2.1 20 (fun _ => some 17) "past date" 17
     (by decide) (by decide) rfl (by decide),
   c5_retry_after_precedence.2.2.2.2.2 0 noDate⟩

/-- C3 (amended). Whenever `min ≤ max` and the Retry-After precedence path
does not fire (nil response, other status, or unparsable header), any
duration `NextWaitDuration` returns lies within `[min_wait, max_wait]`
inclusive, for every jitter strategy, every random draw and every attempt
number ≥ 0 — because every computed value passes through `balanceMinMax`.
(The Retry-After path returns the parsed value unclamped, which is the
counterexample to the claim as stated.) -/
theorem c3_next_wait_within_bounds (b : BackoffWithJitter) (rand : Int → Int) (now : Int)
    (pd : String → Option Int) (res : Option Response) (attempt : Nat)
    (hmm : b.min ≤ b.max)
    (hhint : ∀ r, res = some r → (r.statusCode = 429 ∨ r.statusCode = 503) →
      (ParseRetryHeader now pd (headerGet r.header "Retry-After")).2 = false)
    (d : Duration) (b' : BackoffWithJitter)
    (h : NextWaitDuration b rand now pd res attempt = some (d, b')) :
    b.min ≤ d ∧ d ≤ b.max := by
  have hmap : (randDuration b rand (Min.min b.max (b.min * (2 : Int) ^ attempt))).map
      (fun p => (balanceMinMax b p.1, p.2)) = some (d, b') := by
    rcases res with _ | r
    · exact h
    · by_cases hstat : r.statusCode = 429 ∨ r.statusCode = 503
      · have hfalse := hhint r rfl hstat
        simpa only [NextWaitDuration, if_pos hstat, hfalse, Bool.false_eq_true,
          if_false] using h
      · simpa only [NextWaitDuration, if_neg hstat] using h
  rcases hr : randDuration b rand (Min.min b.max (b.min * (2 : Int) ^ attempt)) with _ | p
  · rw [hr] at hmap
    simp at hmap
  · rw [hr] at hmap
    have hd : balanceMinMax b p.1 = d := congrArg Prod.fst (Option.some_injective _ hmap)
    rw [← hd]
    exact balanceMinMax_mem b hmm p.1

/-- C3 witness: the amended theorem applied to the 100ms/3000ms no-jitter
calculator with a nil prior response at attempt 0, whose computed wait is
100ms. -/
theorem c3_next_wait_within_bounds_witness :
    b0.min ≤ 100 * millisecond ∧ 100 * millisecond ≤ b0.max :=
  c3_next_wait_within_bounds b0 noRand 0 noDate none 0 (by decide)
    (fun r hr _ => nomatch hr) (100 * millisecond) b0 rfl

/-- C8. `wrapDecompressor` leaves the response untouched when the trimmed
Content-Encoding is absent or `identity`; fails with the
decompressor-not-found error when a non-empty, non-identity token has no
registered transform; and after `put`ting a transform under `"br"`, a
response whose Content-Encoding is `br` is routed through exactly that
transform (its output becomes the body, and the encoding/length headers
are dropped). -/
theorem c8_decompressor_registry :
    (∀ r : Response, r.isRead = false →
       (goTrimSpace (headerGet r.header "Content-Encoding") = "" ∨
        goTrimSpace (headerGet r.header "Content-Encoding") = "identity") →
       wrapDecompressor r = Except.ok r) ∧
    (∀ (r : Response) (v : String), r.isRead = false →
       goTrimSpace (headerGet r.header "Content-Encoding") = v →
       v ≠ "" → v ≠ "identity" → decompressorsGet r.decompressors v = none →
       wrapDecompressor r = Except.error (WrapErr.decompressorNotFound v)) ∧
    (∀ (r : Response) (fn : DecompressFn) (d : Option GoBody), r.isRead = false →
       goTrimSpace (headerGet r.header "Content-Encoding") = "br" →
       fn r.body = Except.ok d →
       wrapDecompressor { r with decompressors := decompressorsPut r.decompressors "br" fn } =
         Except.ok { r with
           decompressors := decompressorsPut r.decompressors "br" fn,
           body := d,
           header := headerDel (headerDel r.header "Content-Encoding") "Content-Length",
           contentLength := -1 }) := by
  refine ⟨?_, ?_, ?_⟩
  · intro r h1 h2
    rcases h2 with h2 | h2 <;>
      simp only [wrapDecompressor, h1, h2, Bool.false_eq_true, if_false, beq_self_eq_true,
        Bool.true_or, Bool.or_true, if_true]
  · intro r v h1 h2 h3 h4 h5
    simp only [wrapDecompressor, h1, h2, h5, Bool.false_eq_true, if_false, beq_iff_eq]
    rw [if_neg]
    simp [h3, h4]
  · intro r fn d h1 h2 h3
    have hfind : decompressorsGet (("br", fn) :: r.decompressors) "br" = some fn := by
      simp [decompressorsGet, List.find?]
    simp only [wrapDecompressor, h1, h2, decompressorsPut, Bool.false_eq_true, if_false]
    rw [if_neg (by decide), hfind]
    simp only [h3]

/-- C8 witness: registering `fnBr` under `"br"` and wrapping a concrete
response with `Content-Encoding: br` replaces the body with `fnBr`'s
output; a bare response passes through unmodified; an unregistered token
fails with not-found. -/
theorem c8_decompressor_registry_witness :
    wrapDecompressor { resBr with decompressors := decompressorsPut [] "br" fnBr } =
      Except.ok { resBr with
        decompressors := decompressorsPut [] "br" fnBr,
        body := some [9, 9],
        header := [],
        contentLength := -1 } ∧
    wrapDecompressor res200 = Except.ok res200 ∧
    wrapDecompressor resBr = Except.error (WrapErr.decompressorNotFound "br") :=
  ⟨by
    have h := c8_decompressor_registry.2.2 resBr fnBr (some [9, 9]) rfl rfl rfl
    simpa using h,
   c8_decompressor_registry.1 res200 rfl (Or.inl rfl),
   c8_decompressor_registry.2.1 resBr "br" rfl rfl (by decide) (by decide) rfl⟩

/-- Helper: one unfolding of the current Exec's loop when the attempt's
transport error coincides with a deadline-exceeded context: the loop stops
at once with that attempt's outcome. -/
theorem execV2Loop_deadline_stop (env : ExecEnv) (idem isRetry : Bool)
    (cond : Option (Option Response → Option GoError → Bool)) (count : Int)
    (fuel attempt : Nat) (af : Int) (wait : Duration) (backoff : Option BackoffWithJitter)
    (res0 : Option Response) (err0 : Option ReqError) (made : Nat) (e : GoError)
    (h1 : ¬((attempt : Int) > count))
    (h2 : (env.exec (af + 1)).2 = some e)
    (h3 : env.ctxErrAfter (af + 1) = some CtxErr.deadlineExceeded) :
    execV2Loop env idem isRetry cond count (fuel + 1) attempt af wait backoff res0 err0 made
      = some ⟨(env.exec (af + 1)).1, some (ReqError.transport e), made + 1⟩ := by
  simp only [execV2Loop, if_neg h1, h2, h3]
  simp

/-- Helper: one unfolding of the current Exec's loop when the sleep after
a retryable attempt is interrupted by the context completing: the loop
aborts, returning the context's error. -/
theorem execV2Loop_sleep_cancel (env : ExecEnv) (idem : Bool)
    (cond : Option (Option Response → Option GoError → Bool)) (count : Int)
    (fuel attempt : Nat) (af : Int) (wait : Duration)
    (res0 : Option Response) (err0 : Option ReqError) (made : Nat)
    (h1 : ¬((attempt : Int) > count))
    (h2 : (env.exec (af + 1)).2 = none)
    (h3 : (af + 1 - 1 == count && idem) = false)
    (h4 : defaultRetryCondition (env.exec (af + 1)).1 (env.exec (af + 1)).2 = true)
    (h5 : env.doneDuringSleep attempt = true) :
    execV2Loop env idem true cond count (fuel + 1) attempt af wait none res0 err0 made
      = some ⟨(env.exec (af + 1)).1,
          (env.ctxErrSleep attempt).map ReqError.contextError, made + 1⟩ := by
  have h4' : defaultRetryCondition (env.exec (af + 1)).1 none = true := by
    rw [← h2]
    exact h4
  simp only [execV2Loop, if_neg h1, h2, h3, h4', h5]
  simp

/-- C7. If a transport attempt errors while the request's context reports
deadline-exceeded, the current Exec stops immediately with no further
attempts (stated for any loop state, and for `Exec` itself on the first
attempt); and if the context completes while Exec sleeps between attempts,
the sleep is aborted and the context's error is returned instead of
continuing the retry sequence. -/
theorem c7_context_cancellation :
    (∀ (env : ExecEnv) (idem isRetry : Bool)
       (cond : Option (Option Response → Option GoError → Bool)) (count : Int)
       (fuel attempt : Nat) (af : Int) (wait : Duration)
       (backoff : Option BackoffWithJitter) (res0 : Option Response)
       (err0 : Option ReqError) (made : Nat) (e : GoError),
       ¬((attempt : Int) > count) →
       (env.exec (af + 1)).2 = some e →
       env.ctxErrAfter (af + 1) = some CtxErr.deadlineExceeded →
       execV2Loop env idem isRetry cond count (fuel + 1) attempt af wait backoff res0 err0 made
         = some ⟨(env.exec (af + 1)).1, some (ReqError.transport e), made + 1⟩) ∧
    (∀ (env : ExecEnv) (idem : Bool)
       (cond : Option (Option Response → Option GoError → Bool)) (count : Int)
       (fuel attempt : Nat) (af : Int) (wait : Duration)
       (res0 : Option Response) (err0 : Option ReqError) (made : Nat),
       ¬((attempt : Int) > count) →
       (env.exec (af + 1)).2 = none →
       (af + 1 - 1 == count && idem) = false →
       defaultRetryCondition (env.exec (af + 1)).1 (env.exec (af + 1)).2 = true →
       env.doneDuringSleep attempt = true →
       execV2Loop env idem true cond count (fuel + 1) attempt af wait none res0 err0 made
         = some ⟨(env.exec (af + 1)).1,
             (env.ctxErrSleep attempt).map ReqError.contextError, made + 1⟩) ∧
    (∀ (env : ExecEnv) (r : RequestV2) (e : GoError),
       (env.exec (r.attempt0 + 1)).2 = some e →
       env.ctxErrAfter (r.attempt0 + 1) = some CtxErr.deadlineExceeded →
       ExecV2 env r = some ⟨(env.exec (r.attempt0 + 1)).1, some (ReqError.transport e), 1⟩) := by
  refine ⟨execV2Loop_deadline_stop, execV2Loop_sleep_cancel, ?_⟩
  intro env r e h2 h3
  simp only [ExecV2]
  by_cases hc : (r.retry.getD { wait := 0, count := 0, cond := none, backoff := none }).count < 0
  · rw [if_pos hc]
    exact execV2Loop_deadline_stop env _ r.isRetry _ _ _ _ r.attempt0 _ _ none none 0 e
      (by simp) h2 h3
  · rw [if_neg hc]
    exact execV2Loop_deadline_stop env _ r.isRetry _ _ _ _ r.attempt0 _ _ none none 0 e
      (by simpa using hc) h2 h3

/-- C7 witness: the theorem's Exec-level part applied to an environment
whose first attempt errors under an expired deadline (one call, no retry),
and its sleep part applied to a cancellation arriving during the first
backoff sleep. -/
theorem c7_context_cancellation_witness :
    ExecV2 envDeadline reqGet =
      some ⟨none, some (ReqError.transport (GoError.other "timeout")), 1⟩ ∧
    execV2Loop envCancelSleep true true none 2 3 0 0 (10 * millisecond) none none none 0 =
      some ⟨some res503, some (ReqError.contextError CtxErr.canceled), 1⟩ :=
  ⟨c7_context_cancellation.2.2 envDeadline reqGet (GoError.other "timeout") rfl rfl,
   c7_context_cancellation.2.1 envCancelSleep true none 2 2 0 0 (10 * millisecond)
     none none 0 (by decide) rfl (by decide) rfl rfl⟩

/-- Helper: when every attempt of the current Exec's loop is error-free at
the transport level, judged retryable by the default condition, and no
context event interferes, the loop performs one `client.exec` call per
remaining permitted iteration — for any method: idempotency only selects
between the final-attempt break and a final sleep. -/
theorem execV2Loop_all_retryable (env : ExecEnv) (idem : Bool)
    (cond : Option (Option Response → Option GoError → Bool)) (count : Int)
    (hexec : ∀ k, (env.exec k).2 = none)
    (hcond : ∀ k, defaultRetryCondition (env.exec k).1 (env.exec k).2 = true)
    (hdone : ∀ a, env.doneDuringSleep a = false) :
    ∀ (fuel attempt : Nat) (af : Int) (wait : Duration) (res0 : Option Response)
      (err0 : Option ReqError) (made : Nat),
      af = (attempt : Int) →
      (attempt : Int) ≤ count →
      (fuel : Int) + attempt = count + 1 →
      ∃ o, execV2Loop env idem true cond count fuel attempt af wait none res0 err0 made
        = some o ∧ o.attemptsMade = made + fuel := by
  intro fuel
  induction fuel with
  | zero =>
    intro attempt af wait res0 err0 made haf h1 h2
    exfalso
    omega
  | succ fuel ih =>
    intro attempt af wait res0 err0 made haf h1 h2
    subst haf
    have hcond' : ∀ k, defaultRetryCondition (env.exec k).1 none = true := by
      intro k
      rw [← hexec k]
      exact hcond k
    by_cases hac : (attempt : Int) = count
    · have hf : fuel = 0 := by omega
      subst hf
      by_cases hidem : idem = true
      · refine ⟨⟨(env.exec ((attempt : Int) + 1)).1, none, made + 1⟩, ?_, rfl⟩
        simp only [execV2Loop, if_neg (by omega : ¬((attempt : Int) > count)), hexec, hidem]
        simp [hac]
      · refine ⟨⟨(env.exec ((attempt : Int) + 1)).1, none, made + 1⟩, ?_, rfl⟩
        simp only [execV2Loop, if_neg (by omega : ¬((attempt : Int) > count)), hexec,
          hcond', hdone]
        simp [hac, hidem, execV2Loop]
    · obtain ⟨o, ho, hm⟩ := ih (attempt + 1) ((attempt : Int) + 1) wait
        (env.exec ((attempt : Int) + 1)).1 none (made + 1)
        (by push_cast; ring) (by omega) (by push_cast at h2 ⊢; omega)
      refine ⟨o, ?_, by omega⟩
      simp only [execV2Loop, if_neg (by omega : ¬((attempt : Int) > count)), hexec,
        hcond', hdone]
      simp only [Option.isSome_none, Bool.false_and, Bool.false_eq_true, if_false,
        Int.add_sub_cancel]
      simp [hac]
      exact ho

/-- C1 (amended). In the older Exec (part_001) the idempotency gate holds
as the claim states: with retry enabled, a non-idempotent method without
the opt-in never enters the retry loop — exactly one transport call is
made whatever its outcome. In the current Exec (part_002), idempotency
does not gate retrying: with retry enabled and every attempt judged
retryable, the engine makes `Count + 1` transport calls for any method —
a POST receiving 503 is retried exactly like a GET (the idempotency test
only decides whether the final permitted attempt breaks early or sleeps
once more). -/
theorem c1_idempotency_gate_amended :
    (∀ (env : ExecEnv) (r : RequestV1), r.isRetry = true →
       isIdempotentMethod r.allowNonIdempotentRetry r.method = false →
       ∃ o, ExecV1 env r = some o ∧ o.attemptsMade = 1) ∧
    (∀ (env : ExecEnv) (method uri : String) (wait : Duration) (n : Nat),
       (∀ k, (env.exec k).2 = none) →
       (∀ k, defaultRetryCondition (env.exec k).1 (env.exec k).2 = true) →
       (∀ a, env.doneDuringSleep a = false) →
       ∃ o, ExecV2 env
           { method := method, uri := uri, isRetry := true,
             allowNonIdempotentRetry := false, attempt0 := 0,
             retry := some { wait := wait, count := (n : Int), cond := none, backoff := none } }
         = some o ∧ o.attemptsMade = n + 1) := by
  constructor
  · intro env r h1 h2
    have hgate : (r.isRetry && isIdempotentMethod r.allowNonIdempotentRetry r.method) = false := by
      rw [h1, h2]
      rfl
    rcases hh : r.responseHook with _ | hook
    · exact ⟨⟨(env.exec r.attempt0).1, (env.exec r.attempt0).2.map ReqError.transport, 1⟩,
        by simp [ExecV1, hgate, hh], rfl⟩
    · by_cases hq : r.requestHookIsNil = true
      · rcases hres : hook (env.exec r.attempt0).1 with _ | he
        · exact ⟨⟨(env.exec r.attempt0).1, (env.exec r.attempt0).2.map ReqError.transport, 1⟩,
            by simp [ExecV1, hgate, hh, hq, hres], rfl⟩
        · exact ⟨⟨none, some (ReqError.hookFailed he), 1⟩,
            by simp [ExecV1, hgate, hh, hq, hres], rfl⟩
      · exact ⟨⟨(env.exec r.attempt0).1, (env.exec r.attempt0).2.map ReqError.transport, 1⟩,
          by simp [ExecV1, hgate, hh, hq], rfl⟩
  · intro env method uri wait n hexec hcond hdone
    obtain ⟨o, ho, hm⟩ := execV2Loop_all_retryable env (isIdempotentMethod false method)
      none (n : Int) hexec hcond hdone (n + 1) 0 0 wait none none 0
      (by simp) (by simp) (by push_cast; ring)
    refine ⟨o, ?_, by omega⟩
    simp only [ExecV2, Option.getD_some]
    rw [if_neg (by omega : ¬((n : Int) < 0))]
    simpa [Int.toNat_natCast] using ho

/-- C1 witness: the amended theorem applied to (i) a POST with retry
enabled under the older Exec against a transport that always yields 503 —
one single call — and (ii) a GET with `Count = 2` under the current Exec
against the same transport — three calls. -/
theorem c1_idempotency_gate_amended_witness :
    (∃ o, ExecV1 envAll503 reqPostV1 = some o ∧ o.attemptsMade = 1) ∧
    (∃ o, ExecV2 envAll503
        { method := "GET", uri := "http://example.com/g", isRetry := true,
          allowNonIdempotentRetry := false, attempt0 := 0,
          retry := some
            { wait := 10 * millisecond, count := ((2 : Nat) : Int), cond := none,
              backoff := none } }
      = some o ∧ o.attemptsMade = 2 + 1) :=
  ⟨c1_idempotency_gate_amended.1 envAll503 reqPostV1 rfl rfl,
   c1_idempotency_gate_amended.2 envAll503 "GET" "http://example.com/g" (10 * millisecond) 2
     (fun _ => rfl) (fun _ => rfl) (fun _ => rfl)⟩

end Httpx
